import Mathlib

/-!
Shallow embedding of the plugin-playground import resolver (src/resolver.ts)
and plugin transpiler (src/transpiler.ts).

External collaborators (dialogs, the settings store, the document manager,
the AMD loader, path utilities, the TypeScript emitter) are modelled as
oracles: functions supplied in the environment. The settings store's write
is modelled as durable (read-after-write returns the written value), per
the external-interface contract. User dialog answers are modelled as the
button labels the source's switch statement reads. JavaScript `null` is a
value (`JSValue.nullv`); a missing attribute read (`undefined`) is `none`.
-/

namespace PluginPlayground

/-- A JavaScript value, as far as the resolver observes one. `nullv` is the
JS `null` sentinel the source compares against with `!== null`. -/
inductive JSValue where
  | nullv
  | str (s : String)
  | num (n : Int)
  deriving DecidableEq, Repr

/-- An `IModule`: a bag of named attributes (property reads on anything else
are not observed by the resolver). -/
abbrev Attrs := List (String × JSValue)

/-- `type CDNPolicy = 'awaiting-decision' | 'always-insecure' | 'never'`. -/
inductive CDNPolicy where
  | awaitingDecision
  | alwaysInsecure
  | never
  deriving DecidableEq, Repr

/-- The settings store's composite: `allowCDN` and `requirejsCDN`. -/
structure Settings where
  allowCDN : CDNPolicy
  requirejsCDN : String
  deriving DecidableEq, Repr

/-- Result of `askUserForCDNPolicy`: a policy, or the abort sentinel. -/
inductive AskResult where
  | policy (p : CDNPolicy)
  | abortToInvestigate
  deriving DecidableEq, Repr

/-- `askUserForCDNPolicy`: the switch over the clicked button's label;
any other label (the default case) yields `awaiting-decision`. -/
def askUserForCDNPolicy (label : String) : AskResult :=
  if label = "Forbid" then AskResult.policy CDNPolicy.never
  else if label = "Allow" then AskResult.policy CDNPolicy.alwaysInsecure
  else if label = "Abort" then AskResult.abortToInvestigate
  else AskResult.policy CDNPolicy.awaitingDecision

/-- The message of the error thrown on the abort branch of `_getCDNConsent`. -/
def abortMessage : String := "User aborted execution when asked about CDN policy"

/-- The message of the error thrown by `resolve` when consent is not agreed. -/
def deniedMessage (moduleName : String) : String :=
  "Module " ++ moduleName ++ " requires execution from CDN but it is not allowed."

/-- The message of the final error of `resolve` when no strategy succeeded. -/
def unresolvedMessage (moduleName : String) : String :=
  "Could not resolve the module " ++ moduleName

/-- `ImportResolver._getCDNConsent`. State passing: the settings record is
threaded; `settings.set('allowCDN', p)` is the durable update of `allowCDN`.
`user k` is the label of the button clicked at the k-th prompt of this call.
The TypeScript recursion is unbounded when persistence is flaky, so the
model takes fuel; `none` means the fuel ran out before the source returned.
Returns (thrown error or `agreed`, final settings, prompts shown,
evaluations of the policy switch). -/
def getCDNConsent : Nat → (Nat → String) → Settings →
    Option (Except String Bool × Settings × Nat × Nat)
  | 0, _, _ => none
  | Nat.succ fuel, user, st =>
    match st.allowCDN with
    | CDNPolicy.awaitingDecision =>
      match askUserForCDNPolicy (user 0) with
      | AskResult.abortToInvestigate =>
        some (Except.error abortMessage, st, 1, 1)
      | AskResult.policy p =>
        match getCDNConsent fuel (fun i => user (i + 1)) ⟨p, st.requirejsCDN⟩ with
        | none => none
        | some (r, s, prompts, evals) => some (r, s, prompts + 1, evals + 1)
    | CDNPolicy.never => some (Except.ok false, st, 0, 1)
    | CDNPolicy.alwaysInsecure => some (Except.ok true, st, 0, 1)

/-- A file model as returned by `documentManager.services.contents.get`. -/
structure FileModel where
  content : JSValue
  deriving DecidableEq, Repr

/-- `ImportResolver.IOptions` with its external collaborators as oracles:
`requirejs` is the promise-wrapped AMD loader (`Except.error` = its error
callback, `Except.ok none` = it resolved `null`), `documentManager` is the
contents `get` when a document manager is available, `dirname`/`joinPath`
stand for `PathExt.dirname`/`PathExt.join`. -/
structure Env where
  modules : List (String × Attrs)
  tokenMap : List (String × JSValue)
  requirejs : String → Except String (Option Attrs)
  documentManager : Option (String → FileModel)
  basePath : Option String
  dirname : String → String
  joinPath : String → String → String

/-- `Reflect.get(target, prop)` on an attribute bag: `none` is `undefined`. -/
def reflectGet (target : Attrs) (prop : String) : Option JSValue :=
  List.lookup prop target

/-- The `get` trap of the `tokenHandler` proxy built in `resolve`: a string
property read first consults the token map under `moduleName:prop`, then
falls back to the target's own attribute. (Non-string property keys bypass
the token map in the source; only string reads are modelled.) -/
def tokenHandlerGet (tokenMap : List (String × JSValue)) (moduleName : String)
    (target : Attrs) (prop : String) : Option JSValue :=
  match List.lookup (moduleName ++ ":" ++ prop) tokenMap with
  | some v => some v
  | none => reflectGet target prop

/-- `ImportResolver._resolveKnownModule`: `hasOwnProperty` then the value. -/
def resolveKnownModule (env : Env) (data : String) : Option Attrs :=
  List.lookup data env.modules

/-- `data.startsWith('.')`. -/
def startsWithDot (s : String) : Bool :=
  match s.data with
  | [] => false
  | c :: _ => c = '.'

/-- `ImportResolver._resolveLocalFile`. `Except.ok JSValue.nullv` covers both
the early `return null` for a non-relative identifier and a fetched file
whose `content` happens to be `null` — the caller cannot tell them apart,
exactly as in the source. -/
def resolveLocalFile (env : Env) (data : String) : Except String JSValue :=
  if startsWithDot data = false then Except.ok JSValue.nullv
  else
    match env.documentManager with
    | none =>
      Except.error
        ("Cannot resolve import of local module " ++ data ++
          ": document manager is not available")
    | some get =>
      match env.basePath with
      | none =>
        Except.error
          ("Cannot resolve import of local module " ++ data ++
            ": the base path was not provided")
      | some path =>
        Except.ok (get (env.joinPath (env.dirname path) (data ++ ".ts"))).content

/-- `ImportResolver._resolveAMDModule`: the promise-wrapped loader call. -/
def resolveAMDModule (env : Env) (data : String) : Except String (Option Attrs) :=
  env.requirejs data

/-- What `resolve` returns on success: the known module behind the token
proxy, a local file's content, or the AMD module. -/
inductive Resolved where
  | proxied (moduleName : String) (target : Attrs)
  | content (v : JSValue)
  | amd (m : Attrs)
  deriving DecidableEq, Repr

/-- The body of the `try` block of `ImportResolver.resolve`: result or
thrown error, final settings, prompts shown, AMD-loader invocations.
`none` only when `getCDNConsent` ran out of fuel. -/
def resolveInner (fuel : Nat) (user : Nat → String) (env : Env) (st : Settings)
    (moduleName : String) :
    Option (Except String Resolved × Settings × Nat × Nat) :=
  match resolveKnownModule env moduleName with
  | some knownModule =>
    some (Except.ok (Resolved.proxied moduleName knownModule), st, 0, 0)
  | none =>
    match resolveLocalFile env moduleName with
    | Except.error e => some (Except.error e, st, 0, 0)
    | Except.ok localFile =>
      if localFile ≠ JSValue.nullv then
        some (Except.ok (Resolved.content localFile), st, 0, 0)
      else
        match getCDNConsent fuel user st with
        | none => none
        | some (Except.error e, st2, prompts, _) =>
          some (Except.error e, st2, prompts, 0)
        | some (Except.ok agreed, st2, prompts, _) =>
          if agreed then
            match resolveAMDModule env moduleName with
            | Except.error e => some (Except.error e, st2, prompts, 1)
            | Except.ok (some m) =>
              some (Except.ok (Resolved.amd m), st2, prompts, 1)
            | Except.ok none =>
              some (Except.error (unresolvedMessage moduleName), st2, prompts, 1)
          else
            some (Except.error (deniedMessage moduleName), st2, prompts, 0)

/-- The observable outcome of one `resolve` call. `reported` lists the
errors handed to `handleImportError` (format + show) by the catch block. -/
structure ResolveResult where
  result : Except String Resolved
  settings : Settings
  prompts : Nat
  loaderCalls : Nat
  reported : List String

/-- `ImportResolver.resolve`: the try body, and on error the catch block
shows the error through `handleImportError` and rethrows it unchanged. -/
def resolve (fuel : Nat) (user : Nat → String) (env : Env) (st : Settings)
    (moduleName : String) : Option ResolveResult :=
  match resolveInner fuel user env st moduleName with
  | none => none
  | some (Except.error e, st2, prompts, loaderCalls) =>
    some ⟨Except.error e, st2, prompts, loaderCalls, [e]⟩
  | some (Except.ok v, st2, prompts, loaderCalls) =>
    some ⟨Except.ok v, st2, prompts, loaderCalls, []⟩

/-! Projections used to state observations of a `resolve` call without
binding its result. -/

def obsResult : Option ResolveResult → Option (Except String Resolved)
  | none => none
  | some r => some r.result

def obsPolicy : Option ResolveResult → Option CDNPolicy
  | none => none
  | some r => some r.settings.allowCDN

def obsSettings : Option ResolveResult → Option Settings
  | none => none
  | some r => some r.settings

def obsPrompts : Option ResolveResult → Option Nat
  | none => none
  | some r => some r.prompts

def obsLoaderCalls : Option ResolveResult → Option Nat
  | none => none
  | some r => some r.loaderCalls

def obsReported : Option ResolveResult → Option (List String)
  | none => none
  | some r => some r.reported

def consentPrompts : Option (Except String Bool × Settings × Nat × Nat) → Option Nat
  | none => none
  | some (_, _, prompts, _) => some prompts

def consentEvals : Option (Except String Bool × Settings × Nat × Nat) → Option Nat
  | none => none
  | some (_, _, _, evals) => some evals

def consentPolicy : Option (Except String Bool × Settings × Nat × Nat) → Option CDNPolicy
  | none => none
  | some (_, s, _, _) => some s.allowCDN

/-! The plugin transpiler (src/transpiler.ts). The TypeScript front end's
parse and emit are external: the plugin source stands as the tree the
`_exportTransformer` visitor walks, and `emit` is the front end's output
for it (the visitor rebuilds every node unchanged, so emission sees the
original tree). -/

/-- A node of the source tree as the visitor observes it: an export
assignment (with or without the `default` keyword) or any other node,
each with its children. -/
inductive TsNode where
  | exportAssignment (withDefaultKeyword : Bool) (children : List TsNode)
  | plain (children : List TsNode)

mutual

/-- Whether the visitor of `_exportTransformer`, which recurses into every
child, finds an export assignment carrying the `default` keyword (it then
records `defaultExport`, a non-null expression). -/
def hasDefaultExport : TsNode → Bool
  | TsNode.exportAssignment withDefaultKeyword children =>
    withDefaultKeyword || hasDefaultExportList children
  | TsNode.plain children => hasDefaultExportList children

def hasDefaultExportList : List TsNode → Bool
  | [] => false
  | n :: ns => hasDefaultExport n || hasDefaultExportList ns

end

/-- The replacement `' await require('` as characters. -/
def awaitRequireChars : List Char :=
  [' ', 'a', 'w', 'a', 'i', 't', ' ', 'r', 'e', 'q', 'u', 'i', 'r', 'e', '(']

/-- `outputText.replace(/ require\(/g, ' await require(')` over the
character list: every occurrence of the nine characters `' require('` is
replaced, left to right, the inserted text never rescanned — wherever the
characters stand, call site or not. -/
def replaceRequireChars : List Char → List Char
  | ' ' :: 'r' :: 'e' :: 'q' :: 'u' :: 'i' :: 'r' :: 'e' :: '(' :: rest =>
    awaitRequireChars ++ replaceRequireChars rest
  | c :: rest => c :: replaceRequireChars rest
  | [] => []

/-- The textual rewrite lifted to strings. -/
def awaitRequireRewrite (s : String) : String :=
  String.mk (replaceRequireChars s.data)

/-- The error message of `NoDefaultExportError` as thrown by the
transformer. -/
def noDefaultExportMessage : String := "No default export found"

/-- `PluginTranspiler.transpile`. The transformer runs inside the front
end's compilation, before any output exists: when `requireDefaultExport`
holds and the visitor found no default export, `NoDefaultExportError` is
thrown and no text is produced. Otherwise the emitted body is rewritten
textually and wrapped. -/
def transpile (emit : TsNode → String) (source : TsNode)
    (requireDefaultExport : Bool) : Except String String :=
  if requireDefaultExport && !(hasDefaultExport source) then
    Except.error noDefaultExportMessage
  else
    Except.ok
      ("'use strict';\nconst exports = \x7b\x7d;\n" ++
        awaitRequireRewrite (emit source) ++ "\nreturn exports;")

/-! Concrete collaborators used by witnesses and counterexamples. -/

def sampleUser (_ : Nat) : String := "Forbid"

def sampleDirname (s : String) : String := s

def sampleJoin (a b : String) : String := a ++ "/" ++ b

def sampleLoader (_ : String) : Except String (Option Attrs) :=
  Except.error "offline"

/-- C1 witness environment: module `m` exposes `x = 1`, token `m:x = 2`. -/
def c1Env : Env :=
  ⟨[("m", [("x", JSValue.num 1)])], [("m:x", JSValue.num 2)], sampleLoader,
    none, none, sampleDirname, sampleJoin⟩

/-- C2 counterexample environment: module `m` known but without attribute
`x`, and no token registered. -/
def c2Env : Env :=
  ⟨[("m", [])], [], sampleLoader, none, none, sampleDirname, sampleJoin⟩

/-- C1: with a token registered under `m:x` and a known module `m` that also
exposes attribute `x`, resolving `m` succeeds with the proxied module and
reading attribute `x` through the proxy yields the token's value, never the
module's own value for `x`. -/
theorem token_precedence_over_known_module
    (fuel : Nat) (user : Nat → String) (env : Env) (st : Settings)
    (m x : String) (km : Attrs) (v w : JSValue)
    (hmod : List.lookup m env.modules = some km)
    (htok : List.lookup (m ++ ":" ++ x) env.tokenMap = some v)
    (hown : reflectGet km x = some w) (hne : w ≠ v) :
    resolve fuel user env st m =
      some ⟨Except.ok (Resolved.proxied m km), st, 0, 0, []⟩ ∧
    tokenHandlerGet env.tokenMap m km x = some v ∧
    tokenHandlerGet env.tokenMap m km x ≠ some w := by
  refine ⟨?_, ?_, ?_⟩
  · simp [resolve, resolveInner, resolveKnownModule, hmod]
  · simp [tokenHandlerGet, htok]
  · simp only [tokenHandlerGet, htok]
    intro h
    exact hne (Option.some.inj h).symm

/-- C1 witness: the token value 2 wins over the module's own `x = 1`. -/
theorem token_precedence_over_known_module_instance :
    resolve 1 sampleUser c1Env ⟨CDNPolicy.never, ""⟩ "m" =
      some ⟨Except.ok (Resolved.proxied "m" [("x", JSValue.num 1)]),
        ⟨CDNPolicy.never, ""⟩, 0, 0, []⟩ ∧
    tokenHandlerGet c1Env.tokenMap "m" [("x", JSValue.num 1)] "x" =
      some (JSValue.num 2) ∧
    tokenHandlerGet c1Env.tokenMap "m" [("x", JSValue.num 1)] "x" ≠
      some (JSValue.num 1) :=
  token_precedence_over_known_module 1 sampleUser c1Env ⟨CDNPolicy.never, ""⟩
    "m" "x" [("x", JSValue.num 1)] (JSValue.num 2) (JSValue.num 1)
    rfl rfl rfl (by decide)

/-- C2 counterexample: module `m` is known but exposes no attribute `x` and
no token `m:x` exists, yet `resolve` does not reject — it returns the
proxied module (`Except.ok`), reports no error, never invokes the remote
loader, and the proxy read of `x` is `undefined` rather than a
`MissingAttribute` rejection. -/
theorem known_module_missing_attribute_does_not_reject :
    resolve 1 sampleUser c2Env ⟨CDNPolicy.never, ""⟩ "m" =
      some ⟨Except.ok (Resolved.proxied "m" []), ⟨CDNPolicy.never, ""⟩, 0, 0, []⟩ ∧
    tokenHandlerGet c2Env.tokenMap "m" [] "x" = none :=
  ⟨rfl, rfl⟩

/-- C2 (amended): for a known module `m` and an attribute `x` neither
present on `m` nor registered as token `m:x`, resolution succeeds with the
proxied module — no error of any kind is raised or reported and the remote
loader is never invoked — and reading `x` yields the module's own absent
attribute, i.e. `undefined`. -/
theorem known_module_missing_attribute_yields_undefined
    (fuel : Nat) (user : Nat → String) (env : Env) (st : Settings)
    (m x : String) (km : Attrs)
    (hmod : List.lookup m env.modules = some km)
    (htok : List.lookup (m ++ ":" ++ x) env.tokenMap = none)
    (hown : reflectGet km x = none) :
    resolve fuel user env st m =
      some ⟨Except.ok (Resolved.proxied m km), st, 0, 0, []⟩ ∧
    tokenHandlerGet env.tokenMap m km x = none := by
  constructor
  · simp [resolve, resolveInner, resolveKnownModule, hmod]
  · simp [tokenHandlerGet, htok, hown]

/-- C2 witness: a concrete known module without the requested attribute. -/
theorem known_module_missing_attribute_yields_undefined_instance :
    resolve 1 sampleUser c2Env ⟨CDNPolicy.never, ""⟩ "m" =
      some ⟨Except.ok (Resolved.proxied "m" []), ⟨CDNPolicy.never, ""⟩, 0, 0, []⟩ ∧
    tokenHandlerGet c2Env.tokenMap "m" [] "x" = none :=
  known_module_missing_attribute_yields_undefined 1 sampleUser c2Env
    ⟨CDNPolicy.never, ""⟩ "m" "x" [] rfl rfl rfl

/-- C10: for a relative identifier (leading `.`), with a document manager
and a base path configured, `_resolveLocalFile` returns exactly the
`content` field of the file fetched at `join(dirname(basePath), id + ".ts")`,
for every contents oracle. -/
theorem local_file_resolution_fetches_sibling_ts
    (env : Env) (m : String) (get : String → FileModel) (bp : String)
    (hdot : startsWithDot m = true)
    (hdm : env.documentManager = some get)
    (hbp : env.basePath = some bp) :
    resolveLocalFile env m =
      Except.ok (get (env.joinPath (env.dirname bp) (m ++ ".ts"))).content := by
  simp [resolveLocalFile, hdot, hdm, hbp]

/-- C10 witness environment: a contents oracle that records the path it was
asked for. -/
def c10Get (p : String) : FileModel := ⟨JSValue.str p⟩

def c10Env : Env :=
  ⟨[], [], sampleLoader, some c10Get, some "dir/plugin.ts", sampleDirname,
    sampleJoin⟩

/-- C10 witness: the fetched path is the joined `.ts` sibling and the
returned value is that file's `content`. -/
theorem local_file_resolution_fetches_sibling_ts_instance :
    resolveLocalFile c10Env "./a" =
      Except.ok (JSValue.str "dir/plugin.ts/./a.ts") :=
  local_file_resolution_fetches_sibling_ts c10Env "./a" c10Get "dir/plugin.ts"
    rfl rfl rfl

/-! Helper lemmas for the consent state machine. -/

theorem askUserForCDNPolicy_allow :
    askUserForCDNPolicy "Allow" = AskResult.policy CDNPolicy.alwaysInsecure := by
  decide

theorem askUserForCDNPolicy_forbid :
    askUserForCDNPolicy "Forbid" = AskResult.policy CDNPolicy.never := by
  decide

theorem askUserForCDNPolicy_abort :
    askUserForCDNPolicy "Abort" = AskResult.abortToInvestigate := by
  decide

/-- Once the persisted policy is decided (`always-insecure` or `never`),
every resolution of any module in any environment shows no prompt and
leaves the policy as it read it. -/
def noPromptingAfterDecision : Prop :=
  ∀ (env2 : Env) (st2 : Settings) (user2 : Nat → String) (m2 : String)
    (fuel2 : Nat),
    st2.allowCDN ≠ CDNPolicy.awaitingDecision → 1 ≤ fuel2 →
    obsPrompts (resolve fuel2 user2 env2 st2 m2) = some 0 ∧
    obsPolicy (resolve fuel2 user2 env2 st2 m2) = some st2.allowCDN

theorem no_prompting_after_decision : noPromptingAfterDecision := by
  intro env2 st2 user2 m2 fuel2 hpol hf
  obtain ⟨n, rfl⟩ : ∃ n, fuel2 = n + 1 := ⟨fuel2 - 1, by omega⟩
  unfold resolve resolveInner
  cases hk : resolveKnownModule env2 m2 with
  | some km => simp [obsPrompts, obsPolicy]
  | none =>
    cases hl : resolveLocalFile env2 m2 with
    | error e => simp [obsPrompts, obsPolicy]
    | ok v =>
      by_cases hv : v = JSValue.nullv
      · subst hv
        cases hp : st2.allowCDN with
        | awaitingDecision => exact absurd hp hpol
        | never => simp [getCDNConsent, hp, obsPrompts, obsPolicy]
        | alwaysInsecure =>
          cases hA : resolveAMDModule env2 m2 with
          | error e => simp [getCDNConsent, hp, hA, obsPrompts, obsPolicy]
          | ok mo =>
            cases mo with
            | none => simp [getCDNConsent, hp, hA, obsPrompts, obsPolicy]
            | some mm => simp [getCDNConsent, hp, hA, obsPrompts, obsPolicy]
      · simp [hv, obsPrompts, obsPolicy]

/-- C3: starting from `awaiting-decision`, with module `m` neither known
nor relative, an `Allow` answer persists `always-insecure` and invokes the
remote loader exactly once after a single prompt; a `Forbid` answer
persists `never`, never invokes the loader, after a single prompt; and once
the persisted policy is decided, no resolution of any module prompts again
or changes the policy. -/
theorem consent_decision_persists_and_suppresses_prompts
    (env : Env) (st : Settings) (user : Nat → String) (m : String)
    (hpol : st.allowCDN = CDNPolicy.awaitingDecision)
    (hkm : resolveKnownModule env m = none)
    (hlocal : startsWithDot m = false) :
    (user 0 = "Allow" →
      obsPolicy (resolve 2 user env st m) = some CDNPolicy.alwaysInsecure ∧
      obsLoaderCalls (resolve 2 user env st m) = some 1 ∧
      obsPrompts (resolve 2 user env st m) = some 1) ∧
    (user 0 = "Forbid" →
      obsPolicy (resolve 2 user env st m) = some CDNPolicy.never ∧
      obsLoaderCalls (resolve 2 user env st m) = some 0 ∧
      obsPrompts (resolve 2 user env st m) = some 1) ∧
    noPromptingAfterDecision := by
  have hloc : resolveLocalFile env m = Except.ok JSValue.nullv := by
    simp [resolveLocalFile, hlocal]
  refine ⟨?_, ?_, no_prompting_after_decision⟩
  · intro huser
    cases hA : resolveAMDModule env m with
    | error e =>
      simp [resolve, resolveInner, hkm, hloc, getCDNConsent, hpol, huser,
        askUserForCDNPolicy_allow, hA, obsPolicy, obsLoaderCalls, obsPrompts]
    | ok mo =>
      cases mo with
      | none =>
        simp [resolve, resolveInner, hkm, hloc, getCDNConsent, hpol, huser,
          askUserForCDNPolicy_allow, hA, obsPolicy, obsLoaderCalls, obsPrompts]
      | some mm =>
        simp [resolve, resolveInner, hkm, hloc, getCDNConsent, hpol, huser,
          askUserForCDNPolicy_allow, hA, obsPolicy, obsLoaderCalls, obsPrompts]
  · intro huser
    simp [resolve, resolveInner, hkm, hloc, getCDNConsent, hpol, huser,
      askUserForCDNPolicy_forbid, obsPolicy, obsLoaderCalls, obsPrompts]

/-- C3 witness environment: nothing known locally, a loader that succeeds. -/
def c3Env : Env :=
  ⟨[], [], fun _ => Except.ok (some [("d", JSValue.num 7)]), none, none,
    sampleDirname, sampleJoin⟩

def allowUser (_ : Nat) : String := "Allow"

/-- C3 witness: a concrete first-time `Allow` run. -/
theorem consent_decision_persists_and_suppresses_prompts_instance :
    (allowUser 0 = "Allow" →
      obsPolicy (resolve 2 allowUser c3Env ⟨CDNPolicy.awaitingDecision, "url"⟩ "lod") =
        some CDNPolicy.alwaysInsecure ∧
      obsLoaderCalls (resolve 2 allowUser c3Env ⟨CDNPolicy.awaitingDecision, "url"⟩ "lod") =
        some 1 ∧
      obsPrompts (resolve 2 allowUser c3Env ⟨CDNPolicy.awaitingDecision, "url"⟩ "lod") =
        some 1) ∧
    (allowUser 0 = "Forbid" →
      obsPolicy (resolve 2 allowUser c3Env ⟨CDNPolicy.awaitingDecision, "url"⟩ "lod") =
        some CDNPolicy.never ∧
      obsLoaderCalls (resolve 2 allowUser c3Env ⟨CDNPolicy.awaitingDecision, "url"⟩ "lod") =
        some 0 ∧
      obsPrompts (resolve 2 allowUser c3Env ⟨CDNPolicy.awaitingDecision, "url"⟩ "lod") =
        some 1) ∧
    noPromptingAfterDecision :=
  consent_decision_persists_and_suppresses_prompts c3Env
    ⟨CDNPolicy.awaitingDecision, "url"⟩ allowUser "lod" rfl rfl rfl

/-! Distinctness of the resolver's error messages, by their first
character. -/

theorem abortMessage_ne_deniedMessage (m : String) :
    abortMessage ≠ deniedMessage m := by
  intro h
  have h2 : some 'U' = some 'M' := by
    calc some 'U' = abortMessage.data.head? := rfl
    _ = (deniedMessage m).data.head? := by rw [h]
    _ = some 'M' := rfl
  exact absurd h2 (by decide)

theorem abortMessage_ne_unresolvedMessage (m : String) :
    abortMessage ≠ unresolvedMessage m := by
  intro h
  have h2 : some 'U' = some 'C' := by
    calc some 'U' = abortMessage.data.head? := rfl
    _ = (unresolvedMessage m).data.head? := by rw [h]
    _ = some 'C' := rfl
  exact absurd h2 (by decide)

/-- C4: with the policy `awaiting-decision` and an `Abort` answer, the
resolution rejects with the abort error — a message distinct from the
denial and could-not-resolve errors — the settings are returned unchanged
(the policy is still `awaiting-decision`), and the remote loader is never
invoked. -/
theorem consent_abort_rejects_without_policy_write
    (env : Env) (st : Settings) (user : Nat → String) (m : String) (fuel : Nat)
    (hf : 1 ≤ fuel)
    (hpol : st.allowCDN = CDNPolicy.awaitingDecision)
    (hkm : resolveKnownModule env m = none)
    (hlocal : startsWithDot m = false)
    (huser : user 0 = "Abort") :
    obsResult (resolve fuel user env st m) = some (Except.error abortMessage) ∧
    obsSettings (resolve fuel user env st m) = some st ∧
    obsLoaderCalls (resolve fuel user env st m) = some 0 ∧
    obsPrompts (resolve fuel user env st m) = some 1 ∧
    abortMessage ≠ deniedMessage m ∧
    abortMessage ≠ unresolvedMessage m := by
  obtain ⟨n, rfl⟩ : ∃ n, fuel = n + 1 := ⟨fuel - 1, by omega⟩
  have hloc : resolveLocalFile env m = Except.ok JSValue.nullv := by
    simp [resolveLocalFile, hlocal]
  refine ⟨?_, ?_, ?_, ?_, abortMessage_ne_deniedMessage m,
    abortMessage_ne_unresolvedMessage m⟩ <;>
    simp [resolve, resolveInner, hkm, hloc, getCDNConsent, hpol, huser,
      askUserForCDNPolicy_abort, obsResult, obsSettings, obsLoaderCalls,
      obsPrompts]

def abortUser (_ : Nat) : String := "Abort"

/-- C4 witness: a concrete aborted first-time CDN resolution. -/
theorem consent_abort_rejects_without_policy_write_instance :
    obsResult (resolve 1 abortUser c3Env ⟨CDNPolicy.awaitingDecision, "url"⟩ "lod") =
      some (Except.error abortMessage) ∧
    obsSettings (resolve 1 abortUser c3Env ⟨CDNPolicy.awaitingDecision, "url"⟩ "lod") =
      some ⟨CDNPolicy.awaitingDecision, "url"⟩ ∧
    obsLoaderCalls (resolve 1 abortUser c3Env ⟨CDNPolicy.awaitingDecision, "url"⟩ "lod") =
      some 0 ∧
    obsPrompts (resolve 1 abortUser c3Env ⟨CDNPolicy.awaitingDecision, "url"⟩ "lod") =
      some 1 ∧
    abortMessage ≠ deniedMessage "lod" ∧
    abortMessage ≠ unresolvedMessage "lod" :=
  consent_abort_rejects_without_policy_write c3Env
    ⟨CDNPolicy.awaitingDecision, "url"⟩ abortUser "lod" 1 (by decide) rfl rfl
    rfl rfl

/-- C5: with the policy `never`, every module that reaches the CDN stage
(neither known nor relative) fails with the denial diagnostic, and the
remote loader is never invoked — nor is any prompt shown or the settings
changed. -/
theorem policy_never_denies_without_loader
    (env : Env) (st : Settings) (user : Nat → String) (m : String) (fuel : Nat)
    (hf : 1 ≤ fuel)
    (hpol : st.allowCDN = CDNPolicy.never)
    (hkm : resolveKnownModule env m = none)
    (hlocal : startsWithDot m = false) :
    obsResult (resolve fuel user env st m) =
      some (Except.error (deniedMessage m)) ∧
    obsLoaderCalls (resolve fuel user env st m) = some 0 ∧
    obsPrompts (resolve fuel user env st m) = some 0 ∧
    obsSettings (resolve fuel user env st m) = some st := by
  obtain ⟨n, rfl⟩ : ∃ n, fuel = n + 1 := ⟨fuel - 1, by omega⟩
  have hloc : resolveLocalFile env m = Except.ok JSValue.nullv := by
    simp [resolveLocalFile, hlocal]
  refine ⟨?_, ?_, ?_, ?_⟩ <;>
    simp [resolve, resolveInner, hkm, hloc, getCDNConsent, hpol, obsResult,
      obsSettings, obsLoaderCalls, obsPrompts]

/-- C5 witness: a concrete denial under policy `never`. -/
theorem policy_never_denies_without_loader_instance :
    obsResult (resolve 1 sampleUser c3Env ⟨CDNPolicy.never, "url"⟩ "lod") =
      some (Except.error (deniedMessage "lod")) ∧
    obsLoaderCalls (resolve 1 sampleUser c3Env ⟨CDNPolicy.never, "url"⟩ "lod") =
      some 0 ∧
    obsPrompts (resolve 1 sampleUser c3Env ⟨CDNPolicy.never, "url"⟩ "lod") =
      some 0 ∧
    obsSettings (resolve 1 sampleUser c3Env ⟨CDNPolicy.never, "url"⟩ "lod") =
      some ⟨CDNPolicy.never, "url"⟩ :=
  policy_never_denies_without_loader c3Env ⟨CDNPolicy.never, "url"⟩ sampleUser
    "lod" 1 (by decide) rfl rfl rfl

/-- C9: from `awaiting-decision`, when the user answers `Allow` or `Forbid`
(and the persisted write is read back, as the settings-store contract
guarantees and the state-passing model builds in), `_getCDNConsent`
evaluates the policy switch exactly twice — the initial evaluation plus one
re-entry after the write — and shows exactly one prompt before returning. -/
theorem consent_reevaluates_exactly_once_after_decision
    (st : Settings) (user : Nat → String) (fuel : Nat)
    (hf : 2 ≤ fuel)
    (hpol : st.allowCDN = CDNPolicy.awaitingDecision)
    (hdec : user 0 = "Allow" ∨ user 0 = "Forbid") :
    consentEvals (getCDNConsent fuel user st) = some 2 ∧
    consentPrompts (getCDNConsent fuel user st) = some 1 := by
  obtain ⟨n, rfl⟩ : ∃ n, fuel = n + 2 := ⟨fuel - 2, by omega⟩
  cases hdec with
  | inl huser =>
    constructor <;>
      simp [getCDNConsent, hpol, huser, askUserForCDNPolicy_allow,
        consentEvals, consentPrompts]
  | inr huser =>
    constructor <;>
      simp [getCDNConsent, hpol, huser, askUserForCDNPolicy_forbid,
        consentEvals, consentPrompts]

/-- C9 witness: a concrete `Allow` run of `_getCDNConsent`. -/
theorem consent_reevaluates_exactly_once_after_decision_instance :
    consentEvals (getCDNConsent 2 allowUser ⟨CDNPolicy.awaitingDecision, "url"⟩) =
      some 2 ∧
    consentPrompts (getCDNConsent 2 allowUser ⟨CDNPolicy.awaitingDecision, "url"⟩) =
      some 1 :=
  consent_reevaluates_exactly_once_after_decision
    ⟨CDNPolicy.awaitingDecision, "url"⟩ allowUser 2 (by decide) rfl
    (Or.inl rfl)

/-- Whether an `Except` is the error case. -/
def isErr : Except String String → Bool
  | Except.error _ => true
  | Except.ok _ => false

/-- C6: `transpile` fails, and then with `NoDefaultExportError`'s message
and no output text (the error constructor carries none), exactly when a
default export is required and the source tree has none; with
`requireDefaultExport = false` it never fails. -/
theorem transpile_fails_iff_default_export_required_and_absent
    (emit : TsNode → String) (source : TsNode) (requireDefaultExport : Bool) :
    (isErr (transpile emit source requireDefaultExport) = true ↔
      requireDefaultExport = true ∧ hasDefaultExport source = false) ∧
    (requireDefaultExport = true ∧ hasDefaultExport source = false →
      transpile emit source requireDefaultExport =
        Except.error noDefaultExportMessage) ∧
    isErr (transpile emit source false) = false := by
  cases requireDefaultExport <;> cases h : hasDefaultExport source <;>
    simp [transpile, isErr, h]

/-- C7: every successful `transpile` output is exactly the strict-mode
directive line, the `const exports = {};` line, the emitted body with every
occurrence of the characters `' require('` textually replaced by
`' await require('`, and the final `return exports;` line. -/
theorem transpile_output_is_wrapped_rewritten_body
    (emit : TsNode → String) (source : TsNode) (requireDefaultExport : Bool)
    (out : String)
    (h : transpile emit source requireDefaultExport = Except.ok out) :
    out = "'use strict';\nconst exports = \x7b\x7d;\n" ++
      awaitRequireRewrite (emit source) ++ "\nreturn exports;" := by
  unfold transpile at h
  split at h
  · exact absurd h (by simp)
  · exact (Except.ok.inj h).symm

/-- C7 witness emitter: the body holds `' require('` both inside a string
literal and at a call site, and a `norequire(` occurrence that lacks the
leading space; only the first two are rewritten. -/
def c7Emit (_ : TsNode) : String :=
  "let s = ' require(x)'; require(y); norequire(z)"

def c7Source : TsNode := TsNode.exportAssignment true []

/-- C7 witness: the rewrite hits the string-literal occurrence too — it is
textual, not restricted to call sites. -/
theorem transpile_output_is_wrapped_rewritten_body_instance :
    ("'use strict';\nconst exports = \x7b\x7d;\nlet s = ' await require(x)'; await require(y); norequire(z)\nreturn exports;" : String) =
      "'use strict';\nconst exports = \x7b\x7d;\n" ++
        awaitRequireRewrite (c7Emit c7Source) ++ "\nreturn exports;" :=
  transpile_output_is_wrapped_rewritten_body c7Emit c7Source true
    "'use strict';\nconst exports = \x7b\x7d;\nlet s = ' await require(x)'; await require(y); norequire(z)\nreturn exports;"
    rfl

/-- What the catch block of `resolve` reports for a given outcome: the
thrown error once, nothing on success. -/
def reportedOf : Except String Resolved → List String
  | Except.error e => [e]
  | Except.ok _ => []

/-- C8: whatever `resolve` returns, the errors handed to the error-reporting
collaborator are exactly the thrown error, once — `[e]` when the call
rejects with `e`, `[]` when it succeeds — so no failure is swallowed or
shown twice, and the rethrown error is the reported one. -/
theorem resolve_reports_each_error_exactly_once
    (fuel : Nat) (user : Nat → String) (env : Env) (st : Settings)
    (m : String) (r : ResolveResult)
    (h : resolve fuel user env st m = some r) :
    r.reported = reportedOf r.result := by
  unfold resolve at h
  cases hi : resolveInner fuel user env st m with
  | none => rw [hi] at h; exact absurd h (by simp)
  | some q =>
    rw [hi] at h
    obtain ⟨res, st2, prompts, loaderCalls⟩ := q
    cases res with
    | error e => cases (Option.some.inj h).symm; rfl
    | ok v => cases (Option.some.inj h).symm; rfl

/-- C8 witness outcome: a denial under policy `never` is reported once and
rethrown. -/
def c8Result : ResolveResult :=
  ⟨Except.error (deniedMessage "lod"), ⟨CDNPolicy.never, "url"⟩, 0, 0,
    [deniedMessage "lod"]⟩

/-- C8 witness: a concrete failing resolution reports its error exactly
once. -/
theorem resolve_reports_each_error_exactly_once_instance :
    c8Result.reported = reportedOf c8Result.result :=
  resolve_reports_each_error_exactly_once 1 sampleUser c3Env
    ⟨CDNPolicy.never, "url"⟩ "lod" c8Result rfl

end PluginPlayground
